import Mathlib

set_option maxRecDepth 40000

/-!
Verification model of the tubely video-upload handler
(`handler_upload_video.go`).

The handler is straight-line orchestration code: parse the video id,
authenticate, authorize against the record owner, stage the multipart body
into a temp file, probe the aspect ratio with ffprobe, remux with ffmpeg,
upload to S3 and persist the public URL.  External collaborators (uuid
parsing, JWT validation, database, filesystem, subprocesses, S3) are
modelled as oracle fields of the request: each field records the outcome
the collaborator would return, and the handler is a pure function from the
configuration and that oracle to a trace of its observable behaviour
(HTTP status, which calls were made, which files were created/removed,
the derived key and URL).

Go `float64` arithmetic in `getVideoAspectRatio` is modelled exactly:
every float is an exact rational (`Dy`), and every arithmetic step is the
exact rational result rounded to the nearest binary64 value (ties to
even), which is the IEEE-754 semantics Go implements.  All values reached
by integer width/height inputs lie in the binary64 normal range, so
overflow and subnormal rounding do not arise; division by zero is the one
special case (Inf/NaN), handled where it occurs.
-/

/-- Unnormalized exact rational `num/den` (invariant: `den > 0` by
construction).  Used to give exact values to binary64 (`float64`)
quantities and operations. -/
structure Dy where
  num : Int
  den : Int
deriving DecidableEq

/-- Exact order on fraction values (valid when both `den`s are positive). -/
def Dy.le (a b : Dy) : Bool := a.num * b.den ≤ b.num * a.den

/-- Strict order on fraction values. -/
def Dy.lt (a b : Dy) : Bool := a.num * b.den < b.num * a.den

/-- Value equality of unnormalized fractions. -/
def Dy.eqv (a b : Dy) : Bool := a.num * b.den = b.num * a.den

/-- Absolute value; models Go `math.Abs`, which is exact on floats. -/
def Dy.absD (a : Dy) : Dy := ⟨a.num.natAbs, a.den⟩

def Dy.negD (a : Dy) : Dy := ⟨-a.num, a.den⟩

/-- Exact difference of two fraction values. -/
def Dy.sub (a b : Dy) : Dy := ⟨a.num * b.den - b.num * a.den, a.den * b.den⟩

/-- Number of binary digits of `n` (`0` for `0`), with structural fuel so
the kernel reduces it; the fuel used below covers every number of fewer
than 1024 bits. -/
def bitlen : Nat → Nat → Nat
  | 0, _ => 0
  | fuel+1, n => if n = 0 then 0 else 1 + bitlen fuel (n / 2)

/-- `a * 2^k`, exactly. -/
def Dy.scale (a : Dy) (k : Int) : Dy :=
  if 0 ≤ k then ⟨a.num * 2 ^ k.toNat, a.den⟩ else ⟨a.num, a.den * 2 ^ (-k).toNat⟩

/-- `⌊log₂ a⌋` for `a > 0`. -/
def floorLog2 (a : Dy) : Int :=
  let la := bitlen 1024 a.num.natAbs
  let lb := bitlen 1024 a.den.natAbs
  let e0 : Int := (la : Int) - (lb : Int)
  if (Dy.scale ⟨1, 1⟩ e0).le a then e0 else e0 - 1

/-- Floor of the fraction value (for positive `den`). -/
def Dy.floorD (a : Dy) : Int := a.num.fdiv a.den

/-- Round a positive rational in the binary64 normal range to the nearest
binary64 value, ties to even, returned as an exact rational: the mantissa
is the rounding of `a / 2^(e-52)` where `e = ⌊log₂ a⌋`. -/
def roundPos (a : Dy) : Dy :=
  let e := floorLog2 a
  let scaled := a.scale (52 - e)
  let fl := scaled.floorD
  let frac := scaled.sub ⟨fl, 1⟩
  let m : Int :=
    if Dy.lt frac ⟨1, 2⟩ then fl
    else if Dy.lt ⟨1, 2⟩ frac then fl + 1
    else if fl % 2 = 0 then fl else fl + 1
  Dy.scale ⟨m, 1⟩ (e - 52)

/-- Exact value of the binary64 value nearest to `a` (normal range, ties
to even).  This is the result of any single Go `float64` operation whose
exact result is `a`. -/
def round64 (a : Dy) : Dy :=
  if a.num = 0 then ⟨0, 1⟩
  else if 0 < a.num then roundPos a
  else (roundPos a.negD).negD

/-- Binary64 division: the exact quotient, rounded once. -/
def fdiv64 (a b : Dy) : Dy :=
  let n := a.num * b.den
  let d := a.den * b.num
  if d < 0 then round64 ⟨-n, -d⟩ else round64 ⟨n, d⟩

/-- Binary64 subtraction: the exact difference, rounded once. -/
def fsub64 (a b : Dy) : Dy := round64 (a.sub b)

/-- Aspect-ratio classification, lines 200–212 of
`handler_upload_video.go`:

```go
ratio := float64(width) / float64(height)
landscape := 16.0 / 9.0
portrait := 9.0 / 16.0
tolerance := 0.05
if math.Abs(ratio-landscape) <= tolerance { return "16:9", nil }
else if math.Abs(ratio-portrait) <= tolerance { return "9:16", nil }
else { return "other", nil }
```

Each constant is the binary64 nearest its decimal/constant-expression
value (Go evaluates constant expressions exactly and rounds once at
assignment), the division and subtractions round once, and `math.Abs`
and `<=` are exact.  When `height = 0` the Go division yields `±Inf`
(or `NaN` for `0/0`); every tolerance comparison is then false and the
classification falls through to `"other"`, which the model states
directly. -/
def classifyRatio (w h : Int) : String :=
  if h = 0 then "other"
  else
    let r := fdiv64 (round64 ⟨w, 1⟩) (round64 ⟨h, 1⟩)
    let landscape := round64 ⟨16, 9⟩
    let portrait := round64 ⟨9, 16⟩
    let tolerance := round64 ⟨1, 20⟩
    if ((fsub64 r landscape).absD).le tolerance then "16:9"
    else if ((fsub64 r portrait).absD).le tolerance then "9:16"
    else "other"

/-- One stream entry of the ffprobe JSON output. -/
structure FFStream where
  width : Int
  height : Int
deriving DecidableEq

/-- Outcome of the ffprobe subprocess plus the JSON-unmarshal step:
either the command errored, the JSON failed to parse, or it parsed to a
list of streams. -/
inductive ProbeResult where
  | cmdError (msg : String)
  | parseError (msg : String)
  | output (streams : List FFStream)
deriving DecidableEq

/-- `getVideoAspectRatio`, lines 168–213 of `handler_upload_video.go`:
run ffprobe, unmarshal the JSON, error when there are zero streams, and
otherwise classify the first stream's width/height. -/
def getVideoAspectRatio (probe : ProbeResult) : Except String String :=
  match probe with
  | .cmdError msg => .error msg
  | .parseError msg => .error msg
  | .output streams =>
    match streams with
    | [] => .error "no streams found in ffprobe output"
    | s :: _ => .ok (classifyRatio s.width s.height)

/-- Go `filepath.Ext`: the suffix of the last path element starting at its
final dot, or `""` when there is none.  Scans the reversed character
list, stopping at a path separator. -/
def extOfAux : List Char → List Char → List Char
  | [], _ => []
  | c :: rest, acc =>
    if c = '/' then []
    else if c = '.' then '.' :: acc
    else extOfAux rest (c :: acc)

def extOf (s : String) : String := ⟨extOfAux s.data.reverse []⟩

/-- Go `strings.TrimSuffix`. -/
def trimSuffix (s suf : String) : String :=
  if suf.data.isSuffixOf s.data then ⟨s.data.take (s.data.length - suf.data.length)⟩ else s

/-- The output path `processVideoForFastStart` derives, lines 216–218:
`base + ".processing" + ext` for `ext := filepath.Ext(filePath)` and
`base := strings.TrimSuffix(filePath, ext)`. -/
def processedPathOf (filePath : String) : String :=
  let ext := extOf filePath
  let base := trimSuffix filePath ext
  base ++ ".processing" ++ ext

/-- Oracle for the ffmpeg subprocess and the subsequent `os.Stat`:
whether ffmpeg failed (with its stderr text), whether the output file was
found, and its size. -/
structure RemuxEnv where
  ffmpegErr : Option String
  statOk : Bool
  size : Nat
deriving DecidableEq

/-- `processVideoForFastStart`, lines 215–248 of
`handler_upload_video.go`: derive the sibling output path, run ffmpeg,
then require the output file to exist and be non-empty. -/
def processVideoForFastStart (filePath : String) (env : RemuxEnv) : Except String String :=
  let outputFilePath := processedPathOf filePath
  match env.ffmpegErr with
  | some e => .error ("ffmpeg error: " ++ e)
  | none =>
    if env.statOk = false then .error "processed file not found"
    else if env.size = 0 then .error "processed file is empty"
    else .ok outputFilePath

/-- Characters Go's `mime` package treats as whitespace via
`unicode.IsSpace` (ASCII portion, which is all the handler's headers can
contain for the media-type grammar to accept them). -/
def isSpaceChar (c : Char) : Bool :=
  c = ' ' ∨ c = Char.ofNat 9 ∨ c = Char.ofNat 10 ∨ c = Char.ofNat 13 ∨
    c = Char.ofNat 11 ∨ c = Char.ofNat 12

/-- RFC 1521 tspecials, as listed in Go `mime/grammar.go`
(`"()<>@,;:\\\"/[]?="`). -/
def tspecials : List Char :=
  ['(', ')', '<', '>', '@', ',', ';', ':', Char.ofNat 92, Char.ofNat 34, '/', '[', ']', '?', '=']

/-- Go `mime` `isTokenChar`: printable ASCII that is not a tspecial. -/
def isTokenChar (c : Char) : Bool :=
  0x20 < c.toNat ∧ c.toNat < 0x7f ∧ ¬ tspecials.contains c

/-- ASCII lowering (Go `strings.ToLower`; the media-type grammar only
accepts ASCII, so the Unicode cases cannot be hit on accepted input). -/
def asciiLower (c : Char) : Char :=
  if 65 ≤ c.toNat ∧ c.toNat ≤ 90 then Char.ofNat (c.toNat + 32) else c

def trimSpacesBoth (l : List Char) : List Char :=
  ((l.dropWhile isSpaceChar).reverse.dropWhile isSpaceChar).reverse

/-- Go `mime` `checkMediaTypeDisposition`: a token, optionally followed by
`/` and a second token, with nothing after. -/
def checkMediaTypeDisposition (s : List Char) : Bool :=
  let p := s.span isTokenChar
  if p.1 = [] then false
  else
    match p.2 with
    | [] => true
    | '/' :: r2 =>
      let p2 := r2.span isTokenChar
      p2.1 ≠ [] ∧ p2.2 = []
    | _ => false

/-- Body of a quoted-string parameter value (Go `mime` `consumeValue`,
quoted branch): a backslash escapes a tspecial, CR/LF are rejected, and
a missing closing quote is a failure. -/
def consumeQuoted : Nat → List Char → List Char → Option (List Char × List Char)
  | 0, _, _ => none
  | _, _, [] => none
  | fuel+1, acc, c :: rest =>
    if c = Char.ofNat 34 then some (acc.reverse, rest)
    else if c = Char.ofNat 92 then
      match rest with
      | c2 :: rest2 =>
        if tspecials.contains c2 then consumeQuoted fuel (c2 :: acc) rest2
        else consumeQuoted fuel (c :: acc) rest
      | [] => consumeQuoted fuel (c :: acc) []
    else if c = Char.ofNat 13 ∨ c = Char.ofNat 10 then none
    else consumeQuoted fuel (c :: acc) rest

/-- Go `mime` `consumeValue`: a quoted string or a bare token; `none` is
the `value == "" && rest == v` failure case of the caller. -/
def consumeValue (fuel : Nat) (l : List Char) : Option (List Char × List Char) :=
  match l with
  | [] => none
  | c :: rest =>
    if c = Char.ofNat 34 then consumeQuoted fuel [] rest
    else
      let p := (c :: rest).span isTokenChar
      if p.1 = [] then none else some p

/-- Go `mime` `consumeMediaParam`: `;`, optional spaces, a lowercased key
token, `=`, optional spaces, a value; `none` is the `("", "", v)` failure
return. -/
def consumeMediaParam (fuel : Nat) (v : List Char) : Option (List Char × List Char × List Char) :=
  match v.dropWhile isSpaceChar with
  | ';' :: rest1 =>
    let rest2 := rest1.dropWhile isSpaceChar
    let p := rest2.span isTokenChar
    if p.1 = [] then none
    else
      match p.2.dropWhile isSpaceChar with
      | '=' :: rest5 =>
        let rest6 := rest5.dropWhile isSpaceChar
        match consumeValue fuel rest6 with
        | none => none
        | some pv => some (p.1.map asciiLower, pv.1, pv.2)
      | _ => none
  | _ => none

/-- Parameter loop of Go `mime.ParseMediaType`: consume `; key=value`
pairs, tolerating one trailing semicolon, and rejecting a repeated key
with a different value.  (The RFC 2231 continuation handling for keys
containing `*` is not modelled; the handler discards the parameter map,
so only success/failure is observable, and no claim exercises
continuations.)  Each successful step consumes at least the `;`, so fuel
`length + 2` suffices. -/
def paramsOk : Nat → List (List Char × List Char) → List Char → Bool
  | 0, _, _ => false
  | fuel+1, seen, v =>
    let v1 := v.dropWhile isSpaceChar
    if v1 = [] then true
    else
      match consumeMediaParam (v1.length + 2) v1 with
      | none => trimSpacesBoth v1 = [';']
      | some kvr =>
        match seen.lookup kvr.1 with
        | some v0 => if v0 = kvr.2.1 then paramsOk fuel seen kvr.2.2 else false
        | none => paramsOk fuel ((kvr.1, kvr.2.1) :: seen) kvr.2.2

/-- Go `mime.ParseMediaType` as used by the handler (line 66): the
lowercased, trimmed part before the first `;` must be a valid
`type/subtype`, and the parameters must parse; `some mediatype` models a
nil error, `none` models any non-nil error (including
`ErrInvalidMediaParameter`, on which Go also returns the media type — the
handler treats every non-nil error the same way, so the distinction is
not observable). -/
def parseMediaType (v : String) : Option String :=
  let base := v.data.takeWhile (fun c => c ≠ ';')
  let mediatype := trimSpacesBoth (base.map asciiLower)
  if checkMediaTypeDisposition mediatype = false then none
  else
    let rest := v.data.dropWhile (fun c => c ≠ ';')
    if paramsOk (rest.length + 2) [] rest then some ⟨mediatype⟩ else none

/-- Go `encoding/hex` digit table (lowercase). -/
def hexDigit (n : Nat) : Char := if n < 10 then Char.ofNat (48 + n) else Char.ofNat (87 + n)

/-- Go `hex.EncodeToString` over a byte list (bytes as `Nat < 256`). -/
def hexEncode (bs : List Nat) : String :=
  ⟨(bs.map (fun b => [hexDigit (b / 16 % 16), hexDigit (b % 16)])).flatten⟩

/-- The video record: identifier, owning user, optional public URL (the
fields of `database.Video` the handler reads or writes). -/
structure Video where
  id : String
  userID : String
  videoURL : Option String
deriving DecidableEq

/-- The slice of `apiConfig` the handler reads. -/
structure ApiConfig where
  s3Bucket : String
  s3Region : String
deriving DecidableEq

/-- One request together with the outcomes of every external collaborator
it consults, in program order.  `none`/`false` means that collaborator
returned an error. -/
structure UploadRequest where
  /-- Outcome of `uuid.Parse(r.PathValue("videoID"))`. -/
  parsedVideoID : Option String
  /-- Outcome of `auth.GetBearerToken(r.Header)`. -/
  bearerToken : Option String
  /-- Outcome of `auth.ValidateJWT(token, cfg.jwtSecret)`. -/
  validatedUserID : Option String
  /-- Outcome of `cfg.db.GetVideo(videoID)`. -/
  getVideoResult : Option Video
  /-- Whether `r.FormFile("video")` succeeds. -/
  formFileOk : Bool
  /-- The file part's `Content-Type` header value. -/
  contentTypeHeader : String
  /-- Outcome of `os.CreateTemp`: the temp file's name, or an error. -/
  tempFileName : Option String
  /-- Whether `io.Copy(tempFile, file)` succeeds. -/
  copyOk : Bool
  /-- Outcome of `rand.Read`: the 32 random bytes, or an error. -/
  randBytes : Option (List Nat)
  /-- Outcome of the ffprobe subprocess and JSON decode. -/
  probe : ProbeResult
  /-- Outcome of the ffmpeg subprocess and `os.Stat`. -/
  remux : RemuxEnv
  /-- Whether `os.Open(processedFilePath)` succeeds. -/
  openProcessedOk : Bool
  /-- Whether `cfg.s3Client.PutObject` succeeds. -/
  putObjectOk : Bool
  /-- Whether `cfg.db.UpdateVideo` succeeds. -/
  updateVideoOk : Bool

/-- Which exit the handler took, tagged by the failure site (matching the
`respondWithError` messages in the code), or `ok` for the 200 response. -/
inductive Reason where
  | ok | invalidID | noJWT | badJWT | getVideoErr | notOwner | formFileErr
  | badContentType | unsupportedType | tempCreateErr | copyErr | randErr
  | probeErr | remuxErr | openErr | putErr | updateErr
deriving DecidableEq

/-- Observable behaviour of one handler run. -/
structure Trace where
  /-- HTTP status written to the response. -/
  status : Nat
  /-- Which exit was taken. -/
  reason : Reason
  /-- Whether execution reached the `r.FormFile` stage, i.e. continued
  past the ownership check. -/
  reachedFormStage : Bool
  /-- Whether `os.CreateTemp` was called and succeeded. -/
  tempCreated : Bool
  /-- Whether the deferred `tempFile.Close()` ran. -/
  tempClosed : Bool
  /-- Whether the deferred `os.Remove(tempFile.Name())` ran. -/
  tempRemoved : Bool
  /-- Names passed to `os.Remove`, in order. -/
  removedFiles : List String
  /-- Whether `PutObject` was called. -/
  putCalled : Bool
  /-- Whether `PutObject` was called and succeeded. -/
  putSucceeded : Bool
  /-- Whether `cfg.db.UpdateVideo` was called. -/
  updateCalled : Bool
  /-- The record passed to `UpdateVideo`, when it was called. -/
  updateArg : Option Video
  /-- The derived object key, once computed. -/
  key : Option String
  /-- The computed public URL, once computed. -/
  url : Option String
  /-- The record serialized in the 200 response, on success. -/
  responseVideo : Option Video
deriving DecidableEq

/-- Trace with nothing observed yet. -/
def Trace.base : Trace :=
  ⟨0, .ok, false, false, false, false, [], false, false, false, none, none, none, none⟩

/-- Effect of the two defers registered right after `os.CreateTemp`
succeeds (lines 83–84): on every later exit, the temp file is closed and
removed. -/
def withTempDefers (name : String) (t : Trace) : Trace :=
  { t with tempCreated := true, tempClosed := true, tempRemoved := true,
           removedFiles := [name] }

/-- The `switch aspect` of lines 105–113: map the classification to the
key's directory part. -/
def aspectBucketDir (aspect : String) : String :=
  if aspect = "16:9" then "landscape/"
  else if aspect = "9:16" then "portrait/"
  else "other/"

/-- The public-URL template of line 148:
`fmt.Sprintf("https://%s.s3.%s.amazonaws.com/%s", cfg.s3Bucket, cfg.s3Region, key)`. -/
def s3URL (cfg : ApiConfig) (key : String) : String :=
  "https://" ++ cfg.s3Bucket ++ ".s3." ++ cfg.s3Region ++ ".amazonaws.com/" ++ key

/-- Continuation of the handler from line 86 (`io.Copy`) on, given the
`video` record, the parsed media type and the temp file name; the caller
wraps the result with `withTempDefers`. -/
def afterTemp (cfg : ApiConfig) (r : UploadRequest) (video : Video)
    (_mediaType : String) (name : String) : Trace :=
  if r.copyOk = false then
    { Trace.base with status := 500, reason := .copyErr, reachedFormStage := true }
  else
    match r.randBytes with
    | none => { Trace.base with status := 500, reason := .randErr, reachedFormStage := true }
    | some slice =>
      match getVideoAspectRatio r.probe with
      | .error _ => { Trace.base with status := 500, reason := .probeErr, reachedFormStage := true }
      | .ok aspect =>
        match processVideoForFastStart name r.remux with
        | .error _ => { Trace.base with status := 500, reason := .remuxErr, reachedFormStage := true }
        | .ok _processedFilePath =>
          if r.openProcessedOk = false then
            { Trace.base with status := 500, reason := .openErr, reachedFormStage := true }
          else
            let pathID := hexEncode slice
            let key := aspectBucketDir aspect ++ pathID ++ ".mp4"
            if r.putObjectOk = false then
              { Trace.base with status := 500, reason := .putErr, reachedFormStage := true,
                                putCalled := true, key := some key }
            else
              let url := s3URL cfg key
              let video2 : Video := { video with videoURL := some url }
              if r.updateVideoOk = false then
                { Trace.base with status := 500, reason := .updateErr, reachedFormStage := true,
                                  putCalled := true, putSucceeded := true, updateCalled := true,
                                  updateArg := some video2, key := some key, url := some url }
              else
                { Trace.base with status := 200, reason := .ok, reachedFormStage := true,
                                  putCalled := true, putSucceeded := true, updateCalled := true,
                                  updateArg := some video2, key := some key, url := some url,
                                  responseVideo := some video2 }

/-- `handlerUploadVideo`, lines 25–158 of `handler_upload_video.go`, as a
pure function from the configuration and the collaborator oracle to the
observable trace.  Statuses and exit order mirror the code: 400 invalid
id; 401 missing/bad JWT; 500 GetVideo error; 401 ownership mismatch
(with early return); 401 FormFile error; 400 unparsable or non-`video/mp4`
content type; then 500 for temp-file, copy, rand, probe, remux, open,
PutObject and UpdateVideo failures; 200 on success. -/
def handlerUploadVideo (cfg : ApiConfig) (r : UploadRequest) : Trace :=
  match r.parsedVideoID with
  | none => { Trace.base with status := 400, reason := .invalidID }
  | some _ =>
  match r.bearerToken with
  | none => { Trace.base with status := 401, reason := .noJWT }
  | some _ =>
  match r.validatedUserID with
  | none => { Trace.base with status := 401, reason := .badJWT }
  | some userID =>
  match r.getVideoResult with
  | none => { Trace.base with status := 500, reason := .getVideoErr }
  | some video =>
  if video.userID ≠ userID then { Trace.base with status := 401, reason := .notOwner }
  else if r.formFileOk = false then
    { Trace.base with status := 401, reason := .formFileErr, reachedFormStage := true }
  else
  match parseMediaType r.contentTypeHeader with
  | none => { Trace.base with status := 400, reason := .badContentType, reachedFormStage := true }
  | some mediaType =>
  if mediaType ≠ "video/mp4" then
    { Trace.base with status := 400, reason := .unsupportedType, reachedFormStage := true }
  else
  match r.tempFileName with
  | none => { Trace.base with status := 500, reason := .tempCreateErr, reachedFormStage := true }
  | some name => withTempDefers name (afterTemp cfg r video mediaType name)

/-- Fixture configuration used for concrete instantiations. -/
def cfg0 : ApiConfig := ⟨"tubely-bucket", "us-east-1"⟩

/-- Fixture video record owned by `"user-1"`. -/
def vid0 : Video := ⟨"vid-1", "user-1", none⟩

/-- Fixture request on which every collaborator succeeds: owner matches,
content type is `video/mp4`, and the probe reports a 1920×1080 stream. -/
def reqOk : UploadRequest :=
  ⟨some "vid-1", some "tok", some "user-1", some vid0, true, "video/mp4",
   some "/tmp/tubely-upload.mp4", true, some (List.replicate 32 171),
   .output [⟨1920, 1080⟩], ⟨none, true, 1024⟩, true, true, true⟩

/-- Fixture request failing only at `PutObject`. -/
def reqPutFail : UploadRequest := { reqOk with putObjectOk := false }

/-- Fixture request whose authenticated caller is not the record owner. -/
def reqMismatch : UploadRequest := { reqOk with validatedUserID := some "user-2" }

/-- Fixture request whose multipart form read fails. -/
def reqBadForm : UploadRequest := { reqOk with formFileOk := false }

/-- Fixture request declaring a parseable but unsupported content type. -/
def reqBadCT : UploadRequest := { reqOk with contentTypeHeader := "image/png" }

/-- Fixture request whose content type carries a parameter. -/
def reqParams : UploadRequest := { reqOk with contentTypeHeader := "video/mp4; codecs=avc1" }

/-- Fixture request whose probe output parses to zero streams. -/
def reqNoStreams : UploadRequest := { reqOk with probe := .output [] }

/-- Length of a string built from an explicit character list. -/
theorem strLen_mk (l : List Char) : (String.mk l).length = l.length := rfl

/-- Trimming a suffix removes at most that suffix's length. -/
theorem trimSuffix_length (s suf : String) :
    s.length ≤ (trimSuffix s suf).length + suf.length ∧
    (trimSuffix s suf).length ≤ s.length := by
  unfold trimSuffix
  split
  · have h3 : s.length = s.data.length := rfl
    have h4 : suf.length = suf.data.length := rfl
    simp only [strLen_mk, List.length_take]
    omega
  · omega

/-- The remux output path is always 11 characters (`".processing"`) longer
than its input, hence never equal to it: removing only the input path can
never remove the output path. -/
theorem processedPathOf_ne (s : String) : processedPathOf s ≠ s := by
  intro h
  have hl := trimSuffix_length s (extOf s)
  have hlen := congrArg String.length h
  simp only [processedPathOf, String.length_append] at hlen
  have h11 : ".processing".length = 11 := rfl
  omega

/-- The handler removes at most the temp file: `removedFiles` is empty or
the singleton temp name. -/
theorem handler_removedFiles (cfg : ApiConfig) (r : UploadRequest) :
    (handlerUploadVideo cfg r).removedFiles = [] ∨
    ∃ name, r.tempFileName = some name ∧
      (handlerUploadVideo cfg r).removedFiles = [name] := by
  unfold handlerUploadVideo afterTemp withTempDefers
  repeat' split
  all_goals simp_all [Trace.base]

/-- The HTTP status the handler writes for each exit, as the code has it
(note `formFileErr` ↦ 401: line 61 responds `StatusUnauthorized` to a
form-read failure, not 400). -/
def statusOfReason : Reason → Nat
  | .ok => 200
  | .invalidID => 400
  | .noJWT => 401
  | .badJWT => 401
  | .getVideoErr => 500
  | .notOwner => 401
  | .formFileErr => 401
  | .badContentType => 400
  | .unsupportedType => 400
  | _ => 500

/-- C1: the database record update (`cfg.db.UpdateVideo` writing the
public URL) is performed only after `PutObject` has returned success; on
any failure at or before the storage upload the handler responds with an
error status and `UpdateVideo` is never called, so the record's URL field
is never written. -/
theorem url_update_only_after_put (cfg : ApiConfig) (r : UploadRequest) :
    ((handlerUploadVideo cfg r).updateCalled = true →
      (handlerUploadVideo cfg r).putSucceeded = true) ∧
    ((handlerUploadVideo cfg r).putSucceeded = false →
      ((handlerUploadVideo cfg r).status = 400 ∨ (handlerUploadVideo cfg r).status = 401 ∨
        (handlerUploadVideo cfg r).status = 500) ∧
      (handlerUploadVideo cfg r).updateCalled = false) := by
  unfold handlerUploadVideo afterTemp withTempDefers
  repeat' split
  all_goals simp_all [Trace.base]

/-- C1 witness: with every collaborator succeeding except `PutObject`,
the handler errors and never calls `UpdateVideo`. -/
theorem url_update_only_after_put_witness :
    ((handlerUploadVideo cfg0 reqPutFail).status = 400 ∨
      (handlerUploadVideo cfg0 reqPutFail).status = 401 ∨
      (handlerUploadVideo cfg0 reqPutFail).status = 500) ∧
    (handlerUploadVideo cfg0 reqPutFail).updateCalled = false :=
  (url_update_only_after_put cfg0 reqPutFail).2 (by decide)

/-- C2: when the fetched record's owning user differs from the identity
resolved from the bearer token, the handler responds 401 and
`cfg.db.UpdateVideo` is never called. -/
theorem non_owner_no_update (cfg : ApiConfig) (r : UploadRequest)
    (pid tok uid : String) (v : Video)
    (hp : r.parsedVideoID = some pid) (ht : r.bearerToken = some tok)
    (hu : r.validatedUserID = some uid) (hv : r.getVideoResult = some v)
    (hne : v.userID ≠ uid) :
    (handlerUploadVideo cfg r).status = 401 ∧
    (handlerUploadVideo cfg r).updateCalled = false := by
  simp [handlerUploadVideo, hp, ht, hu, hv, hne, Trace.base]

/-- C2 witness: a caller authenticated as `"user-2"` uploading to
`"user-1"`'s video gets 401 and no record mutation. -/
theorem non_owner_no_update_witness :
    (handlerUploadVideo cfg0 reqMismatch).status = 401 ∧
    (handlerUploadVideo cfg0 reqMismatch).updateCalled = false :=
  non_owner_no_update cfg0 reqMismatch "vid-1" "tok" "user-2" vid0 rfl rfl rfl rfl (by decide)

/-- C3 counterexample: the input whose real ratio is exactly 16/9 + 0.05
(width 329, height 180: 329/180 = 16/9 + 1/20 exactly) is NOT classified
into the landscape bucket by the code: the binary64 difference
`float64(329)/float64(180) - 16.0/9.0` rounds to just above the binary64
constant 0.05, the `<=` comparison fails, and the result is `"other"`. -/
theorem aspect_edge_counterexample :
    classifyRatio 329 180 = "other" ∧ classifyRatio 329 180 ≠ "16:9" ∧
    (329 : ℚ) / 180 = 16 / 9 + 1 / 20 :=
  ⟨by decide, by decide, by norm_num⟩

/-- C3 (amended): the classification is a pure, total function into the
three buckets; ratio exactly 16/9 (e.g. 16×9, 1920×1080) is landscape,
exactly 9/16 portrait, 1.0 other — but the tolerance edge 16/9 + 0.05
(329×180), and anything beyond it (330×180), classify as `"other"`,
because the binary64 arithmetic rounds the edge difference to strictly
more than the binary64 value of 0.05. -/
theorem aspect_classification_binary64 :
    classifyRatio 16 9 = "16:9" ∧ classifyRatio 1920 1080 = "16:9" ∧
    classifyRatio 9 16 = "9:16" ∧ classifyRatio 1080 1920 = "9:16" ∧
    classifyRatio 1 1 = "other" ∧ classifyRatio 329 180 = "other" ∧
    classifyRatio 330 180 = "other" ∧
    ∀ w h : Int, classifyRatio w h = "16:9" ∨ classifyRatio w h = "9:16" ∨
      classifyRatio w h = "other" := by
  refine ⟨by decide, by decide, by decide, by decide, by decide, by decide, by decide, ?_⟩
  intro w h
  simp only [classifyRatio]
  split
  · right; right; rfl
  · split
    · left; rfl
    · split
      · right; left; rfl
      · right; right; rfl

/-- C4 counterexample: a failure to read the multipart form body —
malformed input in the claim's classification, so it demands 400 — is
answered with 401 (line 61 passes `http.StatusUnauthorized`). -/
theorem status_taxonomy_counterexample :
    (handlerUploadVideo cfg0 reqBadForm).reason = Reason.formFileErr ∧
    (handlerUploadVideo cfg0 reqBadForm).status = 401 ∧
    (handlerUploadVideo cfg0 reqBadForm).status ≠ 400 :=
  ⟨by decide, by decide, by decide⟩

/-- C4 (amended): every response status matches the failure class as the
code implements it — 400 for a bad identifier and a bad or unsupported
content type; 401 for authentication and authorization failures and ALSO
for a multipart form-read failure; 500 for I/O, external-tool, storage
and database failures; 200 on success. -/
theorem status_matches_failure_class (cfg : ApiConfig) (r : UploadRequest) :
    (handlerUploadVideo cfg r).status =
      statusOfReason (handlerUploadVideo cfg r).reason := by
  unfold handlerUploadVideo afterTemp withTempDefers
  repeat' split
  all_goals simp_all [Trace.base, statusOfReason]

/-- C5 counterexample (negation of the claim): there is NO request on
which the ownership check fails and execution still reaches a later
pipeline stage — the `return` at line 56 is present, so the "missing
early return" the claim describes does not exist in this code. -/
theorem ownership_gap_counterexample :
    ¬ ∃ (cfg : ApiConfig) (r : UploadRequest) (pid tok uid : String) (v : Video),
      r.parsedVideoID = some pid ∧ r.bearerToken = some tok ∧
      r.validatedUserID = some uid ∧ r.getVideoResult = some v ∧
      v.userID ≠ uid ∧ (handlerUploadVideo cfg r).reachedFormStage = true := by
  rintro ⟨cfg, r, pid, tok, uid, v, hp, ht, hu, hv, hne, hreach⟩
  simp [handlerUploadVideo, hp, ht, hu, hv, hne, Trace.base] at hreach

/-- C5 (amended): on an ownership mismatch the handler responds 401 and
always stops: the form is never read, no temp file is created, and no
storage or database call happens. -/
theorem ownership_mismatch_stops_processing (cfg : ApiConfig) (r : UploadRequest)
    (pid tok uid : String) (v : Video)
    (hp : r.parsedVideoID = some pid) (ht : r.bearerToken = some tok)
    (hu : r.validatedUserID = some uid) (hv : r.getVideoResult = some v)
    (hne : v.userID ≠ uid) :
    (handlerUploadVideo cfg r).status = 401 ∧
    (handlerUploadVideo cfg r).reachedFormStage = false ∧
    (handlerUploadVideo cfg r).tempCreated = false ∧
    (handlerUploadVideo cfg r).putCalled = false ∧
    (handlerUploadVideo cfg r).updateCalled = false := by
  simp [handlerUploadVideo, hp, ht, hu, hv, hne, Trace.base]

/-- C5 witness for the amended claim: the concrete non-owner request
stops before the form-read stage. -/
theorem ownership_mismatch_stops_processing_witness :
    (handlerUploadVideo cfg0 reqMismatch).reachedFormStage = false ∧
    (handlerUploadVideo cfg0 reqMismatch).tempCreated = false :=
  ⟨(ownership_mismatch_stops_processing cfg0 reqMismatch "vid-1" "tok" "user-2" vid0
      rfl rfl rfl rfl (by decide)).2.1,
   (ownership_mismatch_stops_processing cfg0 reqMismatch "vid-1" "tok" "user-2" vid0
      rfl rfl rfl rfl (by decide)).2.2.1⟩

/-- C6: for a request that reaches the upload stage, the derived object
key is `<bucket>/<hex(id)>.mp4` — the aspect bucket directory (one of
`landscape/`, `portrait/`, `other/`) matching the classified aspect,
then the hex encoding of the 32 random bytes, then `.mp4` — and once
`PutObject` succeeds, the URL written into the record passed to
`UpdateVideo` is `https://<bucket-name>.s3.<region>.amazonaws.com/<key>`. -/
theorem object_key_and_url_template (cfg : ApiConfig) (r : UploadRequest)
    (pid tok uid name : String) (v : Video) (slice : List Nat) (aspect : String)
    (hp : r.parsedVideoID = some pid) (ht : r.bearerToken = some tok)
    (hu : r.validatedUserID = some uid) (hv : r.getVideoResult = some v)
    (hown : v.userID = uid) (hff : r.formFileOk = true)
    (hct : parseMediaType r.contentTypeHeader = some "video/mp4")
    (htmp : r.tempFileName = some name) (hcopy : r.copyOk = true)
    (hrand : r.randBytes = some slice)
    (hasp : getVideoAspectRatio r.probe = Except.ok aspect)
    (hffm : r.remux.ffmpegErr = none) (hstat : r.remux.statOk = true)
    (hsz : r.remux.size ≠ 0) (hopen : r.openProcessedOk = true) :
    (handlerUploadVideo cfg r).key =
      some (aspectBucketDir aspect ++ hexEncode slice ++ ".mp4") ∧
    (aspectBucketDir aspect = "landscape/" ∨ aspectBucketDir aspect = "portrait/" ∨
      aspectBucketDir aspect = "other/") ∧
    (r.putObjectOk = true →
      (handlerUploadVideo cfg r).url =
        some (s3URL cfg (aspectBucketDir aspect ++ hexEncode slice ++ ".mp4")) ∧
      (handlerUploadVideo cfg r).updateArg =
        some { v with videoURL := some (s3URL cfg (aspectBucketDir aspect ++ hexEncode slice ++ ".mp4")) }) := by
  have hbucket : aspectBucketDir aspect = "landscape/" ∨ aspectBucketDir aspect = "portrait/" ∨
      aspectBucketDir aspect = "other/" := by
    unfold aspectBucketDir
    split
    · left; rfl
    · split
      · right; left; rfl
      · right; right; rfl
  refine ⟨?_, hbucket, fun hput => ?_⟩
  · cases hput : r.putObjectOk <;> cases hupd : r.updateVideoOk <;>
      simp_all [handlerUploadVideo, afterTemp, withTempDefers, processVideoForFastStart]
  · cases hupd : r.updateVideoOk <;>
      simp_all [handlerUploadVideo, afterTemp, withTempDefers, processVideoForFastStart]

/-- C6 witness: on the all-success fixture the key is the landscape
bucket, the hex of the 32 random bytes and `.mp4`. -/
theorem object_key_and_url_template_witness :
    (handlerUploadVideo cfg0 reqOk).key =
      some (aspectBucketDir "16:9" ++ hexEncode (List.replicate 32 171) ++ ".mp4") :=
  (object_key_and_url_template cfg0 reqOk "vid-1" "tok" "user-1" "/tmp/tubely-upload.mp4"
      vid0 (List.replicate 32 171) "16:9" rfl rfl rfl rfl rfl rfl (by decide) rfl rfl rfl
      rfl rfl rfl (by decide) rfl).1

/-- C7: a request reaching the content-type check with a declared type
that is not `video/mp4` (unparsable, or parsing to another type) is
rejected with 400 before `os.CreateTemp` is reached: no temp file is
created, nothing is staged, nothing is removed. -/
theorem unsupported_type_rejected_before_temp (cfg : ApiConfig) (r : UploadRequest)
    (pid tok uid : String) (v : Video)
    (hp : r.parsedVideoID = some pid) (ht : r.bearerToken = some tok)
    (hu : r.validatedUserID = some uid) (hv : r.getVideoResult = some v)
    (hown : v.userID = uid) (hff : r.formFileOk = true)
    (hct : parseMediaType r.contentTypeHeader ≠ some "video/mp4") :
    (handlerUploadVideo cfg r).status = 400 ∧
    (handlerUploadVideo cfg r).tempCreated = false ∧
    (handlerUploadVideo cfg r).removedFiles = [] ∧
    ((handlerUploadVideo cfg r).reason = Reason.badContentType ∨
      (handlerUploadVideo cfg r).reason = Reason.unsupportedType) := by
  cases hpm : parseMediaType r.contentTypeHeader with
  | none => simp_all [handlerUploadVideo, Trace.base]
  | some mt =>
    have hmt : mt ≠ "video/mp4" := by
      rintro rfl
      exact hct hpm
    simp_all [handlerUploadVideo, Trace.base]

/-- C7 witness: a parseable `image/png` declaration is rejected with 400
and no temp file exists. -/
theorem unsupported_type_rejected_before_temp_witness :
    (handlerUploadVideo cfg0 reqBadCT).status = 400 ∧
    (handlerUploadVideo cfg0 reqBadCT).tempCreated = false ∧
    (handlerUploadVideo cfg0 reqBadCT).removedFiles = [] ∧
    ((handlerUploadVideo cfg0 reqBadCT).reason = Reason.badContentType ∨
      (handlerUploadVideo cfg0 reqBadCT).reason = Reason.unsupportedType) :=
  unsupported_type_rejected_before_temp cfg0 reqBadCT "vid-1" "tok" "user-1" vid0
    rfl rfl rfl rfl rfl rfl (by decide)

/-- C8: every probe failure — command error, JSON unmarshal error, or
zero streams in the parsed output — makes `getVideoAspectRatio` return an
error; a stream entry is only read when the list is non-empty (the head
access is guarded by the zero-streams check); and the handler answers any
probe failure with 500. -/
theorem probe_failure_aborts :
    (∀ m, getVideoAspectRatio (ProbeResult.cmdError m) = Except.error m) ∧
    (∀ m, getVideoAspectRatio (ProbeResult.parseError m) = Except.error m) ∧
    getVideoAspectRatio (ProbeResult.output []) =
      Except.error "no streams found in ffprobe output" ∧
    (∀ s rest, getVideoAspectRatio (ProbeResult.output (s :: rest)) =
      Except.ok (classifyRatio s.width s.height)) ∧
    (∀ (cfg : ApiConfig) (r : UploadRequest) (pid tok uid name e : String) (v : Video),
      r.parsedVideoID = some pid → r.bearerToken = some tok →
      r.validatedUserID = some uid → r.getVideoResult = some v →
      v.userID = uid → r.formFileOk = true →
      parseMediaType r.contentTypeHeader = some "video/mp4" →
      r.tempFileName = some name → r.copyOk = true →
      (∃ slice, r.randBytes = some slice) →
      getVideoAspectRatio r.probe = Except.error e →
      (handlerUploadVideo cfg r).status = 500 ∧
      (handlerUploadVideo cfg r).reason = Reason.probeErr) := by
  refine ⟨fun m => rfl, fun m => rfl, rfl, fun s rest => rfl, ?_⟩
  rintro cfg r pid tok uid name e v hp ht hu hv hown hff hct htmp hcopy ⟨slice, hrand⟩ hprobe
  simp_all [handlerUploadVideo, afterTemp, withTempDefers, Trace.base]

/-- C8 witness: a probe reporting zero streams yields a 500 response at
the probe stage. -/
theorem probe_failure_aborts_witness :
    (handlerUploadVideo cfg0 reqNoStreams).status = 500 ∧
    (handlerUploadVideo cfg0 reqNoStreams).reason = Reason.probeErr :=
  probe_failure_aborts.2.2.2.2 cfg0 reqNoStreams "vid-1" "tok" "user-1"
    "/tmp/tubely-upload.mp4" "no streams found in ffprobe output" vid0
    rfl rfl rfl rfl rfl rfl (by decide) rfl rfl ⟨List.replicate 32 171, rfl⟩ rfl

/-- C9: the content-type check compares only the parsed media type —
`"video/mp4; codecs=avc1"` parses to `video/mp4` and is accepted past
both content-type rejections — while a header that fails media-type
parsing (e.g. `"video/"`) is rejected with 400 as invalid. -/
theorem content_type_params_accepted :
    parseMediaType "video/mp4; codecs=avc1" = some "video/mp4" ∧
    parseMediaType "video/" = none ∧
    (∀ (cfg : ApiConfig) (r : UploadRequest) (pid tok uid : String) (v : Video),
      r.parsedVideoID = some pid → r.bearerToken = some tok →
      r.validatedUserID = some uid → r.getVideoResult = some v →
      v.userID = uid → r.formFileOk = true →
      r.contentTypeHeader = "video/mp4; codecs=avc1" →
      (handlerUploadVideo cfg r).reason ≠ Reason.badContentType ∧
      (handlerUploadVideo cfg r).reason ≠ Reason.unsupportedType) ∧
    (∀ (cfg : ApiConfig) (r : UploadRequest) (pid tok uid : String) (v : Video),
      r.parsedVideoID = some pid → r.bearerToken = some tok →
      r.validatedUserID = some uid → r.getVideoResult = some v →
      v.userID = uid → r.formFileOk = true →
      parseMediaType r.contentTypeHeader = none →
      (handlerUploadVideo cfg r).status = 400 ∧
      (handlerUploadVideo cfg r).reason = Reason.badContentType) := by
  refine ⟨by decide, by decide, ?_, ?_⟩
  · rintro cfg r pid tok uid v hp ht hu hv hown hff hcth
    have hpm : parseMediaType "video/mp4; codecs=avc1" = some "video/mp4" := by decide
    unfold handlerUploadVideo afterTemp withTempDefers
    simp only [hp, ht, hu, hv, hown, hff, hcth, hpm]
    repeat' split
    all_goals simp_all [Trace.base]
  · rintro cfg r pid tok uid v hp ht hu hv hown hff hpm0
    unfold handlerUploadVideo
    simp only [hp, ht, hu, hv, hown, hff, hpm0]
    repeat' split
    all_goals simp_all [Trace.base]

/-- C9 witness: the parameterized header is not rejected at either
content-type gate. -/
theorem content_type_params_accepted_witness :
    (handlerUploadVideo cfg0 reqParams).reason ≠ Reason.badContentType ∧
    (handlerUploadVideo cfg0 reqParams).reason ≠ Reason.unsupportedType :=
  content_type_params_accepted.2.2.1 cfg0 reqParams "vid-1" "tok" "user-1" vid0
    rfl rfl rfl rfl rfl rfl rfl

/-- C10: the staged temp file is closed and removed by its defers on every
exit after its creation, while the remuxed output at the sibling path
`<base>.processing<ext>` is never deleted by the handler on any path —
including a fully successful request, on which the only removed file is
the temp file itself. -/
theorem temp_defers_and_processed_leak :
    (∀ (cfg : ApiConfig) (r : UploadRequest),
      ((handlerUploadVideo cfg r).tempCreated = true →
        (handlerUploadVideo cfg r).tempClosed = true ∧
        (handlerUploadVideo cfg r).tempRemoved = true) ∧
      ∀ name, r.tempFileName = some name →
        processedPathOf name ∉ (handlerUploadVideo cfg r).removedFiles) ∧
    processedPathOf "/tmp/tubely-upload.mp4" = "/tmp/tubely-upload.processing.mp4" ∧
    (handlerUploadVideo cfg0 reqOk).status = 200 ∧
    (handlerUploadVideo cfg0 reqOk).removedFiles = ["/tmp/tubely-upload.mp4"] := by
  refine ⟨fun cfg r => ⟨?_, ?_⟩, by decide, by decide, by decide⟩
  · unfold handlerUploadVideo afterTemp withTempDefers
    repeat' split
    all_goals simp_all [Trace.base]
  · intro name hname hmem
    rcases handler_removedFiles cfg r with h | ⟨n, hn, h⟩
    · rw [h] at hmem
      exact List.not_mem_nil _ hmem
    · have hads := hname.symm.trans hn
      injection hads with heq
      subst heq
      rw [h] at hmem
      rw [List.mem_singleton] at hmem
      exact processedPathOf_ne name hmem

/-- C10 witness: on the all-success fixture the remux output path is not
among the removed files. -/
theorem temp_defers_and_processed_leak_witness :
    processedPathOf "/tmp/tubely-upload.mp4" ∉
      (handlerUploadVideo cfg0 reqOk).removedFiles :=
  (temp_defers_and_processed_leak.1 cfg0 reqOk).2 "/tmp/tubely-upload.mp4" rfl
